import Mathlib

/-!
Shallow embedding of the LanceDB vector-database adapter
(`packages/core/src/vectordb/lancedb-vectordb.ts`) and proofs about it.

Modelling conventions:
- JavaScript numbers that the adapter merely passes through (scores, vector
  components, line numbers) are modelled as rationals/integers; the adapter
  performs no arithmetic on them, so this is faithful.
- The LanceDB backend is external to the repository.  A `Table` bundles the
  stored rows together with the behaviour of each backend call the adapter
  makes (whether the call exists, whether it succeeds, and what it returns);
  `limit(k)` on a backend query is modelled as taking the first `k` entries of
  the backend's returned list.
- JavaScript exceptions are modelled with `Except`; a `try { } catch { }` in
  the source becomes a `match` on the modelled call outcome.
- `JSON.parse` is an external builtin; it is modelled as an arbitrary
  function `String → Except Unit Metadata` carried in `JsEnv`.
- The adapter object's mutable fields are `config`, `db` and `lancedb`
  (`lancedb-vectordb.ts` lines 27-29); `config` never changes, so the
  observable adapter state is `LanceState` = which of `db`/`lancedb` are set.
  The class declares no other field.
-/

namespace ClaudeContext

/-- Scores are JS numbers passed through unchanged; modelled as rationals. -/
abbrev Score := ℚ

/-- Embedding vectors; the adapter only passes them around. -/
abbrev Vec := List ℚ

/-- A parsed JSON metadata object (the adapter treats it opaquely). -/
abbrev Metadata := List (String × String)

/-- External JavaScript builtins the adapter calls: only `JSON.parse`. -/
structure JsEnv where
  jsonParse : String → Except Unit Metadata

/-- Model of `VectorDocument` from `vectordb/types.ts`, as used by the adapter
(fields read/written in `toRow`/`fromRow`). -/
structure VectorDocument where
  id : String
  vector : Vec
  content : String
  relativePath : String
  startLine : Int
  endLine : Int
  fileExtension : String
  metadata : Metadata
deriving DecidableEq

/-- Model of `VectorSearchResult`: document plus score. -/
structure VectorSearchResult where
  document : VectorDocument
  score : Score
deriving DecidableEq

/-- Model of `HybridSearchResult`: document plus score (shape used at
`hybridSearch`'s return, lines 237-240). -/
structure HybridSearchResult where
  document : VectorDocument
  score : Score
deriving DecidableEq

/-- Model of `SearchOptions` as used by the adapter: only `topK` is read
(`options?.topK ?? 10`, line 190). -/
structure SearchOptions where
  topK : Option Nat
deriving DecidableEq

/-- The `data` of a `HybridSearchRequest` is `number[] | string`
(`Array.isArray(r.data)` / `typeof r.data === 'string'`, lines 206-207). -/
inductive HybridData where
  | vec (v : Vec)
  | str (s : String)
deriving DecidableEq

/-- Whether a request's `data` is an array (`Array.isArray(r.data)`). -/
def HybridData.isVec : HybridData → Bool
  | .vec _ => true
  | .str _ => false

/-- Whether a request's `data` is a string (`typeof r.data === 'string'`). -/
def HybridData.isStr : HybridData → Bool
  | .vec _ => false
  | .str _ => true

/-- Model of `HybridSearchRequest` as used by the adapter: `data` and `limit`
(lines 205-209). -/
structure HybridSearchRequest where
  data : HybridData
  limit : Option Nat
deriving DecidableEq

/-- Model of `HybridSearchOptions` as used by the adapter: only `limit`
(`options?.limit`, line 205). -/
structure HybridSearchOptions where
  limit : Option Nat
deriving DecidableEq

/-- A stored/returned LanceDB row, with the fields the adapter reads
(`toRow` lines 139-150, `fromRow` lines 152-172).  `metadata` is the JSON
string column (`none` models a missing/undefined value); `score` is the
optional numeric score a backend search may attach
(`typeof row.score === 'number'`, line 170). -/
structure Row where
  id : String
  vector : Vec
  content : String
  relativePath : String
  startLine : Int
  endLine : Int
  fileExtension : String
  metadata : Option String
  score : Option Score
deriving DecidableEq

/-- Outcome of the chained hybrid call
`table.search(vector).text?.(text)?.hybrid?.()?.limit(topK).toArray()`
(line 222): it can return rows, short-circuit to `undefined` when an
optional method is absent (then `Array.isArray(undefined)` is false and
`results` stays `[]`), or throw. -/
inductive BKind where
  | works
  | undef
  | throws
deriving DecidableEq

/-- Model of one LanceDB table (external collaborator): the stored rows in
scan order plus the behaviour of each call shape the adapter uses. -/
structure Table where
  /-- Stored rows, in the backend's scan order. -/
  rows : List Row
  /-- Whether a full-text-search index has been provisioned on `content`. -/
  ftsIndexed : Bool
  /-- Whether `typeof table.search === 'function'`. -/
  hasSearch : Bool
  /-- Whether `table.search(vector).limit(k).toArray()` succeeds. -/
  denseOk : Bool
  /-- The backend's ranked result list for a dense vector query. -/
  denseRank : Vec → List Row
  /-- Whether variant A `table.search({vector, text, queryType: 'hybrid'})`
  succeeds (line 217). -/
  hybridAOk : Bool
  /-- Ranked results of variant A when it succeeds. -/
  hybridARank : Vec → String → List Row
  /-- Outcome kind of the chained variant B (line 222). -/
  hybridBKind : BKind
  /-- Ranked results of variant B when it returns rows. -/
  hybridBRank : Vec → String → List Row
  /-- Whether `typeof table.delete === 'function'` (line 247). -/
  hasDelete : Bool
  /-- Whether the native `table.delete(predicate)` call succeeds (line 250). -/
  deleteOk : Bool
  /-- Whether the unfiltered scan `table.search().limit(n).toArray()`
  succeeds. -/
  scanOk : Bool
  /-- Whether `typeof table.createIndex === 'function'` (line 73). -/
  hasCreateIndex : Bool
  /-- Whether the first index-creation signature succeeds (line 76). -/
  createIndexOk1 : Bool
  /-- Whether the second index-creation signature succeeds (line 79). -/
  createIndexOk2 : Bool
  /-- Whether the third index-creation signature succeeds (line 81). -/
  createIndexOk3 : Bool

/-- The adapter object's observable mutable state: whether `this.db` and
`this.lancedb` are set (the class has no other mutable field). -/
structure LanceState where
  dbSet : Bool
  lancedbSet : Bool
deriving DecidableEq

/-- Errors an adapter operation can raise. -/
inductive AdapterError where
  /-- `throw new Error('Failed to load @lancedb/lancedb. ...')` (line 42). -/
  | loadFailed
  /-- An uncaught `fs.mkdirSync` failure (line 46). -/
  | mkdirFailed
  /-- An uncaught `lancedb.connect` failure (line 47). -/
  | connectFailed
  /-- An uncaught `db.createTable` failure after `openTable` failed
  (lines 53-56). -/
  | createTableFailed
  /-- An uncaught backend call error. -/
  | backendError
deriving DecidableEq

/-- A dynamically typed row field value, for `query`'s projection
`out[f] = r[f]` (line 281). -/
inductive FieldValue where
  | str (s : String)
  | int (i : Int)
  | num (q : ℚ)
  | vec (v : Vec)
  | undef
deriving DecidableEq

/-- Reading `r[f]` on a row by field name; unknown fields are `undefined`. -/
def rowField (r : Row) (f : String) : FieldValue :=
  if f = "id" then .str r.id
  else if f = "vector" then .vec r.vector
  else if f = "content" then .str r.content
  else if f = "relativePath" then .str r.relativePath
  else if f = "startLine" then .int r.startLine
  else if f = "endLine" then .int r.endLine
  else if f = "fileExtension" then .str r.fileExtension
  else if f = "metadata" then match r.metadata with
    | some s => .str s
    | none => .undef
  else if f = "score" then match r.score with
    | some q => .num q
    | none => .undef
  else .undef

namespace LanceVectorDatabase

/-- Model of `ensureClient` (lines 35-48): returns immediately when `db` is set;
otherwise lazily loads the LanceDB module (throwing when the import fails)
and connects.  `importOk` models whether `import('@lancedb/lancedb')`
succeeds; this restricted model covers the regime where `fs.mkdirSync` and
`connect` succeed — `ensureClientFull` below also models their uncaught
failure paths. -/
def ensureClient (importOk : Bool) (s : LanceState) : Except AdapterError LanceState :=
  if s.dbSet then .ok s
  else if s.lancedbSet then .ok { dbSet := true, lancedbSet := true }
  else if importOk then .ok { dbSet := true, lancedbSet := true }
  else .error .loadFailed

/-- The adapter state after a successful `ensureClient`. -/
def ensuredState (s : LanceState) : LanceState :=
  if s.dbSet then s else { dbSet := true, lancedbSet := true }

/-- The metadata ternary-with-catch of `fromRow` (lines 153-158):
`row.metadata ? JSON.parse(row.metadata) : {}` guarded by `try/catch`
returning `{}`.  A missing value and the empty string are falsy. -/
def parsedMetadata (env : JsEnv) (m : Option String) : Metadata :=
  match m with
  | none => []
  | some s =>
    if s = "" then []
    else
      match env.jsonParse s with
      | .ok obj => obj
      | .error _ => []

/-- Model of `fromRow` (lines 152-172): converts a backend row to a search result.
The document's `vector` is always the caller-supplied `fallbackVector`; the
score is `row.score` when it is a number, else the `score` argument. -/
def fromRow (env : JsEnv) (row : Row) (score : Score) (fallbackVector : Vec) :
    VectorSearchResult :=
  { document :=
      { id := row.id
        vector := fallbackVector
        content := row.content
        relativePath := row.relativePath
        startLine := row.startLine
        endLine := row.endLine
        fileExtension := row.fileExtension
        metadata := parsedMetadata env row.metadata }
    score := row.score.getD score }

/-- The `topK` computation of `search` (line 190): `options?.topK ?? 10`. -/
def searchTopK (options : Option SearchOptions) : Nat :=
  match options with
  | some o => o.topK.getD 10
  | none => 10

/-- Model of `search` (lines 188-201): dense vector search.  The backend call
`table.search(queryVector).limit(topK).toArray()` sits in a `try/catch`
that turns any failure (including `table.search` not being a function)
into an empty result list. -/
def search (env : JsEnv) (t : Table) (queryVector : Vec)
    (options : Option SearchOptions) : List VectorSearchResult :=
  let topK := searchTopK options
  let results :=
    if t.hasSearch && t.denseOk then (t.denseRank queryVector).take topK else []
  results.map (fun r => fromRow env r 0 queryVector)

/-- The `topK` computation of `hybridSearch` (line 205):
`options?.limit ?? (searchRequests[0]?.limit || 10)` — note `||`, so a
first-request limit of `0` falls back to `10`, while an options limit of
`0` is kept. -/
def hybridTopK (searchRequests : List HybridSearchRequest)
    (options : Option HybridSearchOptions) : Nat :=
  match options with
  | some o =>
    match o.limit with
    | some l => l
    | none =>
      match searchRequests.head? with
      | some r => match r.limit with
        | some l => if l = 0 then 10 else l
        | none => 10
      | none => 10
  | none =>
    match searchRequests.head? with
    | some r => match r.limit with
      | some l => if l = 0 then 10 else l
      | none => 10
    | none => 10

/-- The dense vector extracted by `hybridSearch` (lines 206, 208): the first
request whose `data` is an array, else `[]`. -/
def hybridVector (searchRequests : List HybridSearchRequest) : Vec :=
  match searchRequests.find? (fun r => r.data.isVec) with
  | some r => match r.data with
    | .vec v => v
    | .str _ => []
  | none => []

/-- The text query extracted by `hybridSearch` (lines 207, 209): the first
request whose `data` is a string, else the empty string. -/
def hybridText (searchRequests : List HybridSearchRequest) : String :=
  match searchRequests.find? (fun r => r.data.isStr) with
  | some r => match r.data with
    | .vec _ => ""
    | .str s => s
  | none => ""

/-- Model of `hybridSearch` (lines 203-241): tries variant A (single-arg object),
then variant B (optional-chained methods, which may short-circuit to
`undefined`, leaving `results = []`), then variant C (dense-only on the
table), and as a last resort the outer catch delegates to `this.search`
and re-maps its results.  When `table.search` is not a function, `results`
stays `[]`. -/
def hybridSearch (env : JsEnv) (t : Table)
    (searchRequests : List HybridSearchRequest)
    (options : Option HybridSearchOptions) : List HybridSearchResult :=
  let topK := hybridTopK searchRequests options
  let vector := hybridVector searchRequests
  let text := hybridText searchRequests
  let mapRows := fun (rs : List Row) =>
    rs.map (fun r =>
      ({ document := (fromRow env r 0 vector).document
         score := r.score.getD 0 } : HybridSearchResult))
  if !t.hasSearch then []
  else if t.hybridAOk then mapRows ((t.hybridARank vector text).take topK)
  else
    match t.hybridBKind with
    | .works => mapRows ((t.hybridBRank vector text).take topK)
    | .undef => []
    | .throws =>
      if t.denseOk then mapRows ((t.denseRank vector).take topK)
      else
        (search env t vector (some { topK := some topK })).map
          (fun r => { document := r.document, score := r.score })

/-- Model of `delete` (lines 243-260): empty id list returns immediately; a native
`table.delete(predicate)` is tried first; otherwise the fallback scans the
first 1,000,000 rows (`limit(1000000)`, line 256 — this scan is not inside
a `try/catch`, so its failure propagates), keeps those whose id is not
listed, drops the collection and recreates it from the kept rows. -/
def delete (t : Table) (ids : List String) : Except AdapterError (List Row) :=
  if ids.isEmpty then .ok t.rows
  else if t.hasDelete && t.deleteOk then
    .ok (t.rows.filter (fun r => !(ids.contains r.id)))
  else if t.hasSearch && t.scanOk then
    .ok ((t.rows.take 1000000).filter (fun r => !(ids.contains r.id)))
  else .error .backendError

/-- Characters matched by the JavaScript regex class whitespace escape
(restricted to its ASCII members; the adapter's filters never contain the
Unicode ones). -/
def jsSpace (c : Char) : Bool :=
  c = ' ' || c = '\t' || c = '\n' || c = '\r' || c = '\x0b' || c = '\x0c'

/-- Strips an expected literal from the front of a character list. -/
def stripLit : List Char → List Char → Option (List Char)
  | [], cs => some cs
  | _ :: _, [] => none
  | p :: ps, c :: cs => if p = c then stripLit ps cs else none

/-- The anchored regex of `query` (line 272) matching
whitespace, `relativePath`, whitespace, `==`, whitespace, a double quote, a
greedy non-empty dot-plus capture, a closing quote and trailing whitespace.
The greedy capture extends to the last quote whose suffix is all
whitespace; the dot excludes line terminators.  An empty filter is falsy
and never matched (`filter && filter.match(...)`). -/
def matchRelPath (filter : String) : Option String :=
  let cs := filter.toList.dropWhile jsSpace
  match stripLit "relativePath".toList cs with
  | none => none
  | some cs1 =>
    match stripLit "==".toList (cs1.dropWhile jsSpace) with
    | none => none
    | some cs2 =>
      match cs2.dropWhile jsSpace with
      | '"' :: rest =>
        match rest.reverse.dropWhile jsSpace with
        | '"' :: vrev =>
          let v := vrev.reverse
          if v ≠ [] && v.all (fun c => !(c = '\n' || c = '\r')) then
            some (String.mk v)
          else none
        | _ => none
      | _ => none

/-- Model of `query` (lines 262-285): scans up to `limit ?? 16384` rows (failures
are caught into an empty list), applies the `relativePath == "..."` filter
when the filter string matches the regex, then slices to the limit and
projects each row to the requested output fields. -/
def query (t : Table) (filter : String) (outputFields : List String)
    (limit : Option Nat) : List (List (String × FieldValue)) :=
  let maxRows := limit.getD 16384
  let rows0 : List Row := if t.hasSearch && t.scanOk then t.rows.take maxRows else []
  let rows1 : List Row :=
    match matchRelPath filter with
    | some wanted => rows0.filter (fun r => r.relativePath == wanted)
    | none => rows0
  (rows1.take maxRows).map (fun r => outputFields.map (fun f => (f, rowField r f)))

/-- Model of `createHybridCollection` (lines 69-88): opens/creates the table, then
tries three `createIndex` signatures in a cascade whose failures are all
swallowed by the outer `catch`.  No outcome is recorded on the adapter;
only the backend table gains (or does not gain) the index. -/
def createHybridCollection (importOk : Bool) (s : LanceState) (t : Table) :
    Except AdapterError (LanceState × Table) :=
  match ensureClient importOk s with
  | .error e => .error e
  | .ok s1 =>
    let t1 :=
      if t.hasCreateIndex && (t.createIndexOk1 || t.createIndexOk2 || t.createIndexOk3)
      then { t with ftsIndexed := true } else t
    .ok (s1, t1)

/-- Model of `search` at the operation level, threading the adapter state through
`openOrCreateTable`/`ensureClient` (line 189). -/
def searchOp (env : JsEnv) (importOk : Bool) (s : LanceState) (t : Table)
    (queryVector : Vec) (options : Option SearchOptions) :
    Except AdapterError (LanceState × List VectorSearchResult) :=
  match ensureClient importOk s with
  | .error e => .error e
  | .ok s1 => .ok (s1, search env t queryVector options)

/-- Model of `hybridSearch` at the operation level, threading the adapter state
through `openOrCreateTable`/`ensureClient` (line 204). -/
def hybridSearchOp (env : JsEnv) (importOk : Bool) (s : LanceState) (t : Table)
    (searchRequests : List HybridSearchRequest)
    (options : Option HybridSearchOptions) :
    Except AdapterError (LanceState × List HybridSearchResult) :=
  match ensureClient importOk s with
  | .error e => .error e
  | .ok s1 => .ok (s1, hybridSearch env t searchRequests options)

/-- Refinement of `ensureClient` (lines 35-48) that also models the
uncaught failure paths of `fs.mkdirSync` (line 46) and `lancedb.connect`
(line 47), in source order: either failure propagates to the caller.
(The source assigns `this.lancedb` before these steps; that partial state
update after a failure is not tracked, as no claim sequences calls after a
raised error.) -/
def ensureClientFull (importOk mkdirOk connectOk : Bool) (s : LanceState) :
    Except AdapterError LanceState :=
  if s.dbSet then .ok s
  else if !s.lancedbSet && !importOk then .error .loadFailed
  else if !mkdirOk then .error .mkdirFailed
  else if !connectOk then .error .connectFailed
  else .ok { dbSet := true, lancedbSet := true }

/-- Refinement of `openOrCreateTable` (lines 50-58) with all uncaught
failure paths: after `ensureClientFull`, `openTable` is tried and its
failure is caught into `createTable` (lines 52-57); when both fail, the
`createTable` error propagates.  `openOk`/`createOk` model whether those
two backend calls succeed. -/
def openOrCreateTableFull (importOk mkdirOk connectOk openOk createOk : Bool)
    (s : LanceState) : Except AdapterError LanceState :=
  match ensureClientFull importOk mkdirOk connectOk s with
  | .error e => .error e
  | .ok s1 => if openOk || createOk then .ok s1 else .error .createTableFailed

/-- Model of `search` at the operation level with every uncaught fail-fast
path of the source: module load (line 42), `fs.mkdirSync` (line 46),
`lancedb.connect` (line 47) and `createTable` (line 56) failures
propagate to the caller; only the backend search call itself is guarded
by the try/catch of lines 193-199. -/
def searchOpFull (env : JsEnv)
    (importOk mkdirOk connectOk openOk createOk : Bool) (s : LanceState)
    (t : Table) (queryVector : Vec) (options : Option SearchOptions) :
    Except AdapterError (LanceState × List VectorSearchResult) :=
  match openOrCreateTableFull importOk mkdirOk connectOk openOk createOk s with
  | .error e => .error e
  | .ok s1 => .ok (s1, search env t queryVector options)

end LanceVectorDatabase

open LanceVectorDatabase

/-! ### Concrete fixtures used by counterexamples and witnesses -/

/-- A JSON-parse environment in which every string fails to parse. -/
def envE : JsEnv := { jsonParse := fun _ => .error () }

/-- The adapter state of a freshly constructed `LanceVectorDatabase`:
neither `db` nor `lancedb` is set (lines 28-29). -/
def s0 : LanceState := { dbSet := false, lancedbSet := false }

/-- A stored row whose embedding vector is `[9]`. -/
def rowV9 : Row :=
  { id := "r1", vector := [9], content := "c1", relativePath := "a.ts"
    startLine := 1, endLine := 3, fileExtension := ".ts"
    metadata := some "x", score := some 1 }

/-- A table whose dense search returns `rowV9`. -/
def tVec : Table :=
  { rows := [rowV9], ftsIndexed := false
    hasSearch := true, denseOk := true, denseRank := fun _ => [rowV9]
    hybridAOk := false, hybridARank := fun _ _ => []
    hybridBKind := .throws, hybridBRank := fun _ _ => []
    hasDelete := false, deleteOk := false, scanOk := true
    hasCreateIndex := false
    createIndexOk1 := false, createIndexOk2 := false, createIndexOk3 := false }

/-- A backend row returned with score 1. -/
def rowLow : Row :=
  { id := "rL", vector := [], content := "cl", relativePath := "l.ts"
    startLine := 1, endLine := 1, fileExtension := ".ts"
    metadata := none, score := some 1 }

/-- A backend row returned with score 3, which lies outside [0,1]. -/
def rowHigh : Row :=
  { id := "rH", vector := [], content := "ch", relativePath := "h.ts"
    startLine := 2, endLine := 2, fileExtension := ".ts"
    metadata := none, score := some 3 }

/-- A table whose backend returns scores 1 then 3, in that order. -/
def tScores : Table :=
  { rows := [rowLow, rowHigh], ftsIndexed := false
    hasSearch := true, denseOk := true, denseRank := fun _ => [rowLow, rowHigh]
    hybridAOk := false, hybridARank := fun _ _ => []
    hybridBKind := .throws, hybridBRank := fun _ _ => []
    hasDelete := false, deleteOk := false, scanOk := true
    hasCreateIndex := false
    createIndexOk1 := false, createIndexOk2 := false, createIndexOk3 := false }

/-- A backend row with score 1, used by the hybrid fixtures. -/
def rowF : Row :=
  { id := "rf", vector := [7], content := "cf", relativePath := "f.ts"
    startLine := 1, endLine := 2, fileExtension := ".ts"
    metadata := none, score := some 1 }

/-- A backend row with score 2, distinct from `rowF`. -/
def rowG : Row :=
  { id := "rg", vector := [8], content := "cg", relativePath := "g.ts"
    startLine := 4, endLine := 5, fileExtension := ".ts"
    metadata := none, score := some 2 }

/-- A backend that supports the object-style hybrid call (variant A) and
has a working `createIndex` (first signature). -/
def tFusion : Table :=
  { rows := [rowF], ftsIndexed := false
    hasSearch := true, denseOk := true, denseRank := fun _ => []
    hybridAOk := true, hybridARank := fun _ _ => [rowF]
    hybridBKind := .throws, hybridBRank := fun _ _ => []
    hasDelete := true, deleteOk := true, scanOk := true
    hasCreateIndex := true
    createIndexOk1 := true, createIndexOk2 := false, createIndexOk3 := false }

/-- A backend without native fusion (variant A fails, variant B throws)
whose dense search returns exactly what `tFusion`'s fusion returns. -/
def tFallbackSame : Table :=
  { tFusion with
      hybridAOk := false,
      denseRank := fun _ => [rowF],
      hybridARank := fun _ _ => [] }

/-- A fusion-less backend whose chained hybrid call short-circuits to
`undefined` (its query builder lacks the optional methods of line 222). -/
def tUndef : Table :=
  { tFusion with
      hybridAOk := false,
      hybridBKind := .undef,
      hybridARank := fun _ _ => [] }

/-- A backend without native fusion whose dense search returns a different
row than `tFusion`'s fusion. -/
def tFallbackDiff : Table :=
  { tFusion with
      hybridAOk := false,
      denseRank := fun _ => [rowG],
      hybridARank := fun _ _ => [] }

/-- A backend whose three `createIndex` signatures all fail. -/
def tIdxFail : Table :=
  { tFusion with
      createIndexOk1 := false,
      createIndexOk2 := false,
      createIndexOk3 := false }

/-- A backend whose dense search call errors. -/
def tBad : Table := { tVec with denseOk := false }

/-- A hybrid request list with one dense vector `[2]` and one text query. -/
def reqs0 : List HybridSearchRequest :=
  [{ data := .vec [2], limit := none }, { data := .str "q", limit := none }]

/-- Helper: `ensureClient` with a loadable module always succeeds and
yields `ensuredState`. -/
theorem ensureClient_true (s : LanceState) :
    ensureClient true s = .ok (ensuredState s) := by
  unfold ensureClient ensuredState
  by_cases h1 : s.dbSet <;> by_cases h2 : s.lancedbSet <;> simp [h1, h2]

/-- Helper: `ensureClientFull` with a loadable module, working filesystem
and working connection always succeeds and yields `ensuredState`. -/
theorem ensureClientFull_true (s : LanceState) :
    ensureClientFull true true true s = .ok (ensuredState s) := by
  unfold ensureClientFull ensuredState
  by_cases h1 : s.dbSet <;> simp [h1]

/-! ### C9 -/

/-- C9: for every stored row whose metadata field is not valid JSON,
`fromRow` yields an empty metadata object instead of raising; since
`search` and `hybridSearch` build their results through the total function
`fromRow`, they never throw because of malformed stored metadata. -/
theorem C9_fromRow_bad_metadata (env : JsEnv) (row : Row) (sc : Score) (v : Vec)
    (s : String) (hm : row.metadata = some s) (hp : env.jsonParse s = .error ()) :
    (fromRow env row sc v).document.metadata = [] := by
  by_cases hs : s = "" <;>
    simp [fromRow, parsedMetadata, hm, hs, hp]

/-- Witness for C9 at a concrete malformed row. -/
theorem C9_fromRow_bad_metadata_witness :
    rowV9.metadata = some "x" ∧ envE.jsonParse "x" = .error ()
    ∧ (fromRow envE rowV9 0 []).document.metadata = [] :=
  ⟨rfl, rfl, C9_fromRow_bad_metadata envE rowV9 0 [] "x" rfl rfl⟩

/-! ### C10 -/

/-- C10: every result returned by `search` carries the caller's query
vector in its document, and every result returned by `hybridSearch`
carries the dense request vector; the vector stored for the document at
insert time is never returned. -/
theorem C10_result_vector_is_query_vector (env : JsEnv) (t : Table) (qv : Vec)
    (opts : Option SearchOptions) (reqs : List HybridSearchRequest)
    (hopts : Option HybridSearchOptions) :
    (∀ res ∈ search env t qv opts, res.document.vector = qv)
    ∧ (∀ res ∈ hybridSearch env t reqs hopts,
        res.document.vector = hybridVector reqs) := by
  constructor
  · intro res hres
    simp only [search, List.mem_map] at hres
    obtain ⟨r, _, rfl⟩ := hres
    rfl
  · intro res hres
    simp only [hybridSearch] at hres
    split at hres
    · simp at hres
    · split at hres
      · simp only [List.mem_map] at hres
        obtain ⟨r, _, rfl⟩ := hres
        rfl
      · split at hres
        · simp only [List.mem_map] at hres
          obtain ⟨r, _, rfl⟩ := hres
          rfl
        · simp at hres
        · split at hres
          · simp only [List.mem_map] at hres
            obtain ⟨r, _, rfl⟩ := hres
            rfl
          · simp only [List.mem_map] at hres
            obtain ⟨r, hr, rfl⟩ := hres
            simp only [search, List.mem_map] at hr
            obtain ⟨r2, _, rfl⟩ := hr
            rfl

/-- Witness for C10: the stored vector is `[9]`, the query vector `[1]`,
and the returned document carries `[1]`. -/
theorem C10_result_vector_is_query_vector_witness :
    (fromRow envE rowV9 0 [1]) ∈ search envE tVec [1] none
    ∧ (fromRow envE rowV9 0 [1]).document.vector = [1]
    ∧ rowV9.vector = [9] :=
  ⟨by decide,
   (C10_result_vector_is_query_vector envE tVec [1] none [] none).1
     (fromRow envE rowV9 0 [1]) (by decide),
   rfl⟩

/-! ### C6 -/

/-- C6: `search` returns at most `topK` results, defaults `topK` to 10
when no options are given, and each result references a stored document's
relativePath, line range and content (given that the backend ranks only
stored rows). -/
theorem C6_search_topk_bound (env : JsEnv) (t : Table) (qv : Vec)
    (opts : Option SearchOptions)
    (hsub : ∀ r ∈ t.denseRank qv, r ∈ t.rows) :
    (search env t qv opts).length ≤ searchTopK opts
    ∧ search env t qv none = search env t qv (some { topK := some 10 })
    ∧ ∀ res ∈ search env t qv opts, ∃ r ∈ t.rows,
        res.document.relativePath = r.relativePath
        ∧ res.document.startLine = r.startLine
        ∧ res.document.endLine = r.endLine
        ∧ res.document.content = r.content := by
  refine ⟨?_, rfl, ?_⟩
  · simp only [search, List.length_map]
    split
    · exact le_trans (List.length_take_le _ _) (le_refl _)
    · simp
  · intro res hres
    simp only [search, List.mem_map] at hres
    obtain ⟨r, hr, rfl⟩ := hres
    have hr2 : r ∈ t.rows := by
      split at hr
      · exact hsub r (List.mem_of_mem_take hr)
      · simp at hr
    exact ⟨r, hr2, rfl, rfl, rfl, rfl⟩

/-- Witness for C6 at a concrete one-row table. -/
theorem C6_search_topk_bound_witness :
    (search envE tVec [1] none).length ≤ searchTopK none
    ∧ search envE tVec [1] none = search envE tVec [1] (some { topK := some 10 }) :=
  ⟨(C6_search_topk_bound envE tVec [1] none (by decide)).1,
   (C6_search_topk_bound envE tVec [1] none (by decide)).2.1⟩

/-! ### C1 -/

/-- Counterexample to C1: the backend returns raw scores 1 then 3;
`search` returns them unchanged, so a returned score lies outside [0,1]
and the result list is not ordered by descending score. -/
theorem C1_counterexample_scores_not_normalized :
    (search envE tScores [1] none).map (fun r => r.score) = [1, 3]
    ∧ ¬ ((3 : ℚ) ≤ 1)
    ∧ ¬ List.Sorted (· ≥ ·) ((search envE tScores [1] none).map (fun r => r.score)) := by
  refine ⟨by decide, by norm_num, ?_⟩
  intro hsort
  rw [(by decide : (search envE tScores [1] none).map (fun r => r.score) = [1, 3])] at hsort
  have h1 := List.rel_of_sorted_cons hsort 3 (by simp)
  norm_num at h1

/-- Amended C1: `search` and `hybridSearch` pass the backend's scores
through unchanged — each returned score is the backend row's score when it
is a number and 0 otherwise, in the backend's returned order; the adapter
performs no normalization to [0,1] and no reordering. -/
theorem C1_amended_scores_passthrough (env : JsEnv) (t : Table) (qv : Vec)
    (opts : Option SearchOptions) (reqs : List HybridSearchRequest)
    (hopts : Option HybridSearchOptions)
    (hs : t.hasSearch = true) (hd : t.denseOk = true) (hA : t.hybridAOk = true) :
    (search env t qv opts).map (fun r => r.score)
      = ((t.denseRank qv).take (searchTopK opts)).map (fun r => r.score.getD 0)
    ∧ (hybridSearch env t reqs hopts).map (fun r => r.score)
      = ((t.hybridARank (hybridVector reqs) (hybridText reqs)).take
          (hybridTopK reqs hopts)).map (fun r => r.score.getD 0) := by
  constructor
  · simp [search, fromRow, hs, hd, List.map_map]
    rfl
  · simp [hybridSearch, hs, hA, List.map_map]
    rfl

/-- Witness for the amended C1 at a concrete fusion-capable backend. -/
theorem C1_amended_scores_passthrough_witness :
    (search envE tFusion [1] none).map (fun r => r.score)
      = ((tFusion.denseRank [1]).take (searchTopK none)).map (fun r => r.score.getD 0)
    ∧ (hybridSearch envE tFusion reqs0 none).map (fun r => r.score)
      = ((tFusion.hybridARank (hybridVector reqs0) (hybridText reqs0)).take
          (hybridTopK reqs0 none)).map (fun r => r.score.getD 0) :=
  C1_amended_scores_passthrough envE tFusion [1] none reqs0 none rfl rfl rfl

/-! ### C2 -/

/-- Counterexample to C2: a fusion-capable backend and a fusion-less
backend produce identical `hybridSearch` outcomes — the same results and
the same adapter state — so no observable capability flag lets a caller
distinguish native fusion from dense-only fallback. -/
theorem C2_counterexample_no_observable_flag :
    tFusion.hybridAOk = true
    ∧ tFallbackSame.hybridAOk = false
    ∧ tFallbackSame.hybridBKind = .throws
    ∧ hybridSearchOp envE true s0 tFusion reqs0 none
        = hybridSearchOp envE true s0 tFallbackSame reqs0 none := by
  exact ⟨rfl, rfl, rfl, rfl⟩

/-- Amended C2: when the backend lacks native fusion (the object-style
call fails and the chained call does not return rows), `hybridSearch`
never raises and no capability flag records what happened.  If the
chained call throws and the dense call succeeds, it falls back to
dense-only search, returning results in the ranked-result shape with
document fields populated from the backend rows; if the dense call also
fails, the last-resort dense path returns an empty list; and if the
chained call short-circuits to `undefined`, `hybridSearch` returns an
empty list without attempting any dense fallback. -/
theorem C2_amended_dense_fallback (env : JsEnv) (s : LanceState) (t : Table)
    (reqs : List HybridSearchRequest) (opts : Option HybridSearchOptions)
    (h1 : t.hasSearch = true) (h2 : t.hybridAOk = false) :
    (t.hybridBKind = .throws → t.denseOk = true →
      hybridSearchOp env true s t reqs opts
        = .ok (ensuredState s,
            ((t.denseRank (hybridVector reqs)).take (hybridTopK reqs opts)).map
              (fun r => { document := (fromRow env r 0 (hybridVector reqs)).document
                          score := r.score.getD 0 })))
    ∧ (t.hybridBKind = .throws → t.denseOk = false →
      hybridSearchOp env true s t reqs opts = .ok (ensuredState s, []))
    ∧ (t.hybridBKind = .undef →
      hybridSearchOp env true s t reqs opts = .ok (ensuredState s, []))
    ∧ (t.hybridBKind = .throws → t.denseOk = true →
      ∀ res ∈ hybridSearch env t reqs opts,
        ∃ r ∈ t.denseRank (hybridVector reqs),
          res.document.content = r.content
          ∧ res.document.relativePath = r.relativePath
          ∧ res.document.startLine = r.startLine
          ∧ res.document.endLine = r.endLine
          ∧ res.score = r.score.getD 0) := by
  refine ⟨?_, ?_, ?_, ?_⟩
  · intro h3 h4
    simp [hybridSearchOp, ensureClient_true, hybridSearch, h1, h2, h3, h4]
  · intro h3 h4
    simp [hybridSearchOp, ensureClient_true, hybridSearch, search, h1, h2, h3, h4]
  · intro h3
    simp [hybridSearchOp, ensureClient_true, hybridSearch, h1, h2, h3]
  · intro h3 h4 res hres
    have hh : hybridSearch env t reqs opts
        = ((t.denseRank (hybridVector reqs)).take (hybridTopK reqs opts)).map
            (fun r => { document := (fromRow env r 0 (hybridVector reqs)).document
                        score := r.score.getD 0 }) := by
      simp [hybridSearch, h1, h2, h3, h4]
    rw [hh] at hres
    simp only [List.mem_map] at hres
    obtain ⟨r, hr, rfl⟩ := hres
    exact ⟨r, List.mem_of_mem_take hr, rfl, rfl, rfl, rfl, rfl⟩

/-- Witness for the amended C2 at two concrete fusion-less backends: one
whose chained call throws (dense fallback returns the backend row) and
one whose chained call short-circuits to `undefined` (empty result, no
fallback). -/
theorem C2_amended_dense_fallback_witness :
    hybridSearchOp envE true s0 tFallbackSame reqs0 none
      = .ok (ensuredState s0,
          ((tFallbackSame.denseRank (hybridVector reqs0)).take (hybridTopK reqs0 none)).map
            (fun r => { document := (fromRow envE r 0 (hybridVector reqs0)).document
                        score := r.score.getD 0 }))
    ∧ hybridSearchOp envE true s0 tUndef reqs0 none = .ok (ensuredState s0, []) :=
  ⟨(C2_amended_dense_fallback envE s0 tFallbackSame reqs0 none rfl rfl).1 rfl rfl,
   (C2_amended_dense_fallback envE s0 tUndef reqs0 none rfl rfl).2.2.1 rfl⟩

/-! ### C4 -/

/-- Counterexample to C4: after `createHybridCollection` the adapter state
is identical for a fusion-capable and a fusion-less backend (nothing is
cached), yet the very same state yields different `hybridSearch` outcomes
depending on the backend's per-call behaviour — so `hybridSearch` is not
branching on a creation-time cached flag but re-probing the backend's call
shape on every call. -/
theorem C4_counterexample_no_cached_flag :
    Except.map Prod.fst (createHybridCollection true s0 tFusion)
      = Except.map Prod.fst (createHybridCollection true s0 tFallbackDiff)
    ∧ hybridSearchOp envE true s0 tFusion reqs0 none
        = .ok ({ dbSet := true, lancedbSet := true },
            [{ document := (fromRow envE rowF 0 [2]).document, score := 1 }])
    ∧ hybridSearchOp envE true s0 tFallbackDiff reqs0 none
        = .ok ({ dbSet := true, lancedbSet := true },
            [{ document := (fromRow envE rowG 0 [2]).document, score := 2 }])
    ∧ ({ document := (fromRow envE rowF 0 [2]).document, score := 1 } : HybridSearchResult)
        ≠ { document := (fromRow envE rowG 0 [2]).document, score := 2 } := by
  exact ⟨rfl, rfl, rfl, by decide⟩

/-- Amended C4: the adapter performs no capability negotiation —
`createHybridCollection` leaves the adapter state independent of the
backend (no flag is cached), and every `hybridSearch` call determines its
behaviour from the backend's per-call responses to the try/catch cascade,
merely threading the adapter state through unchanged. -/
theorem C4_amended_per_call_probing (env : JsEnv) (s : LanceState) (t : Table)
    (reqs : List HybridSearchRequest) (opts : Option HybridSearchOptions) :
    Except.map Prod.fst (createHybridCollection true s t) = .ok (ensuredState s)
    ∧ hybridSearchOp env true s t reqs opts
        = .ok (ensuredState s, hybridSearch env t reqs opts) := by
  constructor
  · simp [createHybridCollection, ensureClient_true, Except.map]
  · simp [hybridSearchOp, ensureClient_true]

/-! ### C5 -/

/-- Counterexample to C5: when all index-provisioning signatures fail,
`createHybridCollection` still succeeds, but the resulting adapter state
is identical to the state obtained when provisioning succeeds — the
failure is not recorded as a capability flag on the adapter (the adapter
has no such field to record it in). -/
theorem C5_counterexample_failure_not_recorded :
    tIdxFail.hasCreateIndex = true
    ∧ tIdxFail.createIndexOk1 = false
    ∧ tIdxFail.createIndexOk2 = false
    ∧ tIdxFail.createIndexOk3 = false
    ∧ createHybridCollection true s0 tIdxFail
        = .ok ({ dbSet := true, lancedbSet := true }, tIdxFail)
    ∧ Except.map Prod.fst (createHybridCollection true s0 tIdxFail)
        = Except.map Prod.fst (createHybridCollection true s0 tFusion) := by
  exact ⟨rfl, rfl, rfl, rfl, rfl, rfl⟩

/-- Amended C5: `createHybridCollection` attempts to provision the
full-text index and never raises when provisioning fails (the failure is
swallowed), but nothing is recorded on the adapter: its state is the same
whether provisioning succeeded or failed. -/
theorem C5_amended_nonfatal_unrecorded (s : LanceState) (t : Table) :
    Except.map Prod.fst (createHybridCollection true s t) = .ok (ensuredState s)
    ∧ Except.map Prod.fst (createHybridCollection true s t)
        = Except.map Prod.fst (createHybridCollection true s
            { t with createIndexOk1 := false, createIndexOk2 := false,
                     createIndexOk3 := false }) := by
  constructor
  · simp [createHybridCollection, ensureClient_true, Except.map]
  · simp [createHybridCollection, ensureClient_true, Except.map]

/-! ### C7 -/

/-- Counterexample to C7: a backend whose search call errors does not make
the adapter raise — `search` swallows the error and returns a
success-shaped empty result list. -/
theorem C7_counterexample_swallowed_backend_error :
    tBad.denseOk = false
    ∧ tBad.rows = [rowV9]
    ∧ searchOp envE true s0 tBad [1] none
        = .ok ({ dbSet := true, lancedbSet := true }, []) := by
  exact ⟨rfl, rfl, rfl⟩

/-- Amended C7: the adapter fails fast on environment failures — an error
from the module load (line 42), `fs.mkdirSync` (line 46),
`lancedb.connect` (line 47) or `createTable` after a failed `openTable`
(line 56) is raised to the caller — but an error from the backend's
search call itself is caught and surfaced as a success-shaped empty
result list rather than raised. -/
theorem C7_amended_fail_fast_paths (env : JsEnv) (t : Table) (qv : Vec)
    (opts : Option SearchOptions) (s : LanceState) :
    searchOpFull env false true true true true s0 t qv opts = .error .loadFailed
    ∧ searchOpFull env true false true true true s0 t qv opts = .error .mkdirFailed
    ∧ searchOpFull env true true false true true s0 t qv opts = .error .connectFailed
    ∧ searchOpFull env true true true false false s t qv opts = .error .createTableFailed
    ∧ (t.denseOk = false →
        searchOpFull env true true true true true s t qv opts = .ok (ensuredState s, []))
    ∧ searchOpFull env true true true true true s t qv opts
        = .ok (ensuredState s, search env t qv opts) := by
  refine ⟨rfl, rfl, rfl, ?_, ?_, ?_⟩
  · simp [searchOpFull, openOrCreateTableFull, ensureClientFull_true]
  · intro hd
    simp [searchOpFull, openOrCreateTableFull, ensureClientFull_true, search, hd]
  · simp [searchOpFull, openOrCreateTableFull, ensureClientFull_true]

/-- Witness for the amended C7: at a concrete erroring backend, the module
load failure is raised while the backend search error is swallowed into a
success-shaped empty result. -/
theorem C7_amended_fail_fast_paths_witness :
    searchOpFull envE false true true true true s0 tBad [1] none = .error .loadFailed
    ∧ searchOpFull envE true true true true true s0 tBad [1] none
        = .ok (ensuredState s0, []) :=
  ⟨(C7_amended_fail_fast_paths envE tBad [1] none s0).1,
   (C7_amended_fail_fast_paths envE tBad [1] none s0).2.2.2.2.1 rfl⟩

/-! ### C3 -/

/-- Row number `i` of the oversized collection; every row has id "a". -/
def bigRow (i : Nat) : Row :=
  { id := "a", vector := [], content := "", relativePath := ""
    startLine := (i : Int), endLine := 0, fileExtension := ""
    metadata := none, score := none }

/-- A collection of 1,000,001 rows on a backend without native delete. -/
def bigTable : Table :=
  { rows := (List.range 1000001).map bigRow, ftsIndexed := false
    hasSearch := true, denseOk := false, denseRank := fun _ => []
    hybridAOk := false, hybridARank := fun _ _ => []
    hybridBKind := .throws, hybridBRank := fun _ _ => []
    hasDelete := false, deleteOk := false, scanOk := true
    hasCreateIndex := false
    createIndexOk1 := false, createIndexOk2 := false, createIndexOk3 := false }

/-- Counterexample to C3: on a 1,000,001-row collection without native
delete, the fallback scans only the first 1,000,000 rows, so the last row
— whose id "a" is not in the deleted list — is silently dropped by the
rewrite: it was present before the delete and absent afterwards. -/
theorem C3_counterexample_scan_limit_loses_rows :
    bigRow 1000000 ∈ bigTable.rows
    ∧ (["b"].contains (bigRow 1000000).id) = false
    ∧ delete bigTable ["b"] = .ok ((List.range 1000000).map bigRow)
    ∧ bigRow 1000000 ∉ (List.range 1000000).map bigRow := by
  have htake : ((List.range 1000001).map bigRow).take 1000000
      = (List.range 1000000).map bigRow := by
    rw [← List.map_take, List.take_range]
    norm_num
  have hfilt : ((List.range 1000000).map bigRow).filter
      (fun r => !(["b"].contains r.id)) = (List.range 1000000).map bigRow := by
    rw [List.filter_eq_self]
    intro a ha
    obtain ⟨i, _, rfl⟩ := List.mem_map.mp ha
    rfl
  have hrows : bigTable.rows = (List.range 1000001).map bigRow := by
    simp only [bigTable]
  refine ⟨?_, rfl, ?_, ?_⟩
  · rw [hrows]
    exact List.mem_map_of_mem bigRow (List.mem_range.mpr (by norm_num))
  · have hstep : delete bigTable ["b"]
        = .ok ((bigTable.rows.take 1000000).filter (fun r => !(["b"].contains r.id))) := rfl
    rw [hstep, hrows, htake, hfilt]
  · intro hmem
    obtain ⟨i, hi, heq⟩ := List.mem_map.mp hmem
    have hsl : ((i : Nat) : Int) = ((1000000 : Nat) : Int) := congrArg Row.startLine heq
    have hi2 : i = 1000000 := by exact_mod_cast hsl
    rw [hi2] at hi
    exact absurd (List.mem_range.mp hi) (by norm_num)

/-- Amended C3: for every non-empty id list, `delete` removes exactly the
documents whose id is listed and keeps all others unchanged — via the
native filtered delete when the backend provides a working one, and via
the scan-then-rewrite fallback otherwise, provided in the fallback case
that the scan succeeds and the collection holds at most 1,000,000
documents (the fallback scans only that many rows). -/
theorem C3_amended_delete_exact (t : Table) (ids : List String)
    (hne : ids ≠ [])
    (hcap : (t.hasDelete && t.deleteOk) = true
            ∨ ((t.hasSearch && t.scanOk) = true ∧ t.rows.length ≤ 1000000)) :
    delete t ids = .ok (t.rows.filter (fun r => !(ids.contains r.id)))
    ∧ (∀ r ∈ t.rows.filter (fun r => !(ids.contains r.id)), r.id ∉ ids)
    ∧ (∀ r ∈ t.rows, r.id ∉ ids →
        r ∈ t.rows.filter (fun r => !(ids.contains r.id))) := by
  have hni : ids.isEmpty = false := by
    cases ids with
    | nil => exact absurd rfl hne
    | cons a l => rfl
  refine ⟨?_, ?_, ?_⟩
  · rcases hcap with h | ⟨hscan, hlen⟩
    · simp [delete, hni, h]
    · by_cases hnd : (t.hasDelete && t.deleteOk) = true
      · simp [delete, hni, hnd]
      · simp [delete, hni, hnd, hscan, List.take_of_length_le hlen]
  · intro r hr hmem
    have h2 := (List.mem_filter.mp hr).2
    rw [Bool.not_eq_true'] at h2
    simp only [List.contains] at h2
    exact absurd (List.elem_iff.mpr hmem) (by rw [h2]; intro hc; cases hc)
  · intro r hr hnm
    rw [List.mem_filter]
    refine ⟨hr, ?_⟩
    rw [Bool.not_eq_true']
    simp only [List.contains]
    rcases he : ids.elem r.id with _ | _
    · rfl
    · exact absurd (List.elem_iff.mp he) hnm

/-- Witness for the amended C3 at a concrete table with native delete. -/
theorem C3_amended_delete_exact_witness :
    delete tFusion ["zz"] = .ok (tFusion.rows.filter (fun r => !(["zz"].contains r.id))) :=
  (C3_amended_delete_exact tFusion ["zz"] (by decide) (Or.inl rfl)).1

/-! ### C8 -/

/-- C8: `query` applies row filtering only when the filter string has
exactly the regex shape `relativePath == "<value>"`; any other filter is
silently ignored and all scanned rows (up to the limit, defaulting to
16384) are returned, projected to the requested output fields. -/
theorem C8_query_filter_shape (t : Table) (f : String) (fields : List String)
    (lim : Option Nat) (hscan : (t.hasSearch && t.scanOk) = true) :
    (matchRelPath f = none →
        query t f fields lim
          = (t.rows.take (lim.getD 16384)).map
              (fun r => fields.map (fun fl => (fl, rowField r fl))))
    ∧ (∀ w, matchRelPath f = some w →
        query t f fields lim
          = ((t.rows.take (lim.getD 16384)).filter (fun r => r.relativePath == w)).map
              (fun r => fields.map (fun fl => (fl, rowField r fl)))) := by
  constructor
  · intro hm
    simp only [query, hscan, if_true, hm]
    rw [List.take_take]
    simp
  · intro w hm
    simp only [query, hscan, if_true, hm]
    rw [List.take_of_length_le]
    exact le_trans (List.length_filter_le _ _)
      (by rw [List.length_take]; exact Nat.min_le_left _ _)

/-- Witness for C8: a non-matching filter is ignored, a matching one
filters by relativePath. -/
theorem C8_query_filter_shape_witness :
    query tVec "flag" ["id"] none
      = (tVec.rows.take 16384).map (fun r => ["id"].map (fun fl => (fl, rowField r fl)))
    ∧ query tVec "relativePath == \"a.ts\"" ["id"] none
      = ((tVec.rows.take 16384).filter (fun r => r.relativePath == "a.ts")).map
          (fun r => ["id"].map (fun fl => (fl, rowField r fl))) :=
  ⟨(C8_query_filter_shape tVec "flag" ["id"] none rfl).1 (by decide),
   (C8_query_filter_shape tVec "relativePath == \"a.ts\"" ["id"] none rfl).2
     "a.ts" (by decide)⟩

end ClaudeContext
